import Mathlib

/-!
Verification development for the AIEMR repository: a shallow embedding of
the web SDK gateway client (src/web/sdk/client.ts, src/web/sdk/hooks.ts),
the RagChat and SpeechJobsPanel components, and the knowledge-graph
ingestion / hybrid retrieval engine described by the specification.

The Python engine (graph loader, syncer, vector indexer, hybrid retriever,
graph query planner) is not present under src/, only its documentation;
those definitions are modelled from the spec and are marked as such.
-/

/-! ## Web SDK: problem documents and the gateway client (src/web/sdk/client.ts) -/

/-- Modelled from the spec: the runtime shape of an RFC 7807
application/problem+json document as consumed by the web SDK.  The
TypeScript `Problem` type lives in src/web/sdk/types.ts, which is not under
src/; the body of `parseProblem` casts unvalidated JSON, so every field is
optional at runtime. -/
structure Problem where
  title : Option String
  detail : Option String
deriving DecidableEq

/-- An HTTP response as observed by the gateway client.  `problemBody` is
`some p` when `res.json()` succeeds and yields `p`, `none` when the body is
malformed JSON (`res.json()` throws); `text` is the body text returned by
`res.text()`. -/
structure HttpResponse where
  status : Nat
  contentType : Option String
  problemBody : Option Problem
  text : String
deriving DecidableEq

/-- The fetch API's `res.ok`: true exactly when the status is in 200..299. -/
def HttpResponse.ok (r : HttpResponse) : Bool :=
  200 ≤ r.status && r.status ≤ 299

/-- Whether `sub` occurs as a contiguous run inside `s` (character lists). -/
def charsInclude (sub : List Char) : List Char → Bool
  | [] => sub.isEmpty
  | c :: rest => sub.isPrefixOf (c :: rest) || charsInclude sub rest

/-- The TypeScript `String.prototype.includes`. -/
def stringIncludes (s sub : String) : Bool :=
  charsInclude sub.data s.data

/-- Embeds `parseProblem` from src/web/sdk/client.ts: returns the parsed
problem document when the content type includes application/problem+json
and the body parses, and `none` (never throwing) otherwise. -/
def parseProblem (r : HttpResponse) : Option Problem :=
  if stringIncludes (r.contentType.getD "") "application/problem+json" then
    r.problemBody
  else
    none

/-- Embeds the `GatewayError` class of src/web/sdk/client.ts. -/
structure GatewayError where
  message : String
  status : Nat
  problem : Option Problem
deriving DecidableEq

/-- The `GatewayError` built by `GatewayClient.request` on a non-ok
response: `new GatewayError(problem?.title ?? "HTTP <status>", res.status,
problem)`. -/
def gatewayErrorOfResponse (r : HttpResponse) : GatewayError :=
  let problem := parseProblem r
  { message := (problem.bind Problem.title).getD ("HTTP " ++ toString r.status)
  , status := r.status
  , problem := problem }

/-- The observable outcome of `GatewayClient.request`: either the response
is returned or a `GatewayError` is thrown. -/
inductive RequestOutcome where
  | success (status : Nat) (body : String)
  | failure (e : GatewayError)
deriving DecidableEq

/-- Embeds `GatewayClient.request` of src/web/sdk/client.ts: on a non-ok
response it throws the `GatewayError` built from the parsed problem
document; otherwise it returns the body. -/
def GatewayClient.request (r : HttpResponse) : RequestOutcome :=
  if r.ok then .success r.status r.text
  else .failure (gatewayErrorOfResponse r)

/-- Outcome of the artifact fetchers (`fetchTranscript` / `fetchEmr`). -/
inductive FetchResult where
  | ok (body : String)
  | thrown (e : GatewayError)
deriving DecidableEq

/-- Embeds `GatewayClient.fetchTranscript` of src/web/sdk/client.ts: a 202
response throws `GatewayError("Transcript not ready", res.status)` before
the generic non-ok handling; other non-ok responses throw the problem-based
error; ok responses return the body text. -/
def GatewayClient.fetchTranscript (r : HttpResponse) : FetchResult :=
  if r.status = 202 then .thrown { message := "Transcript not ready", status := r.status, problem := none }
  else if r.ok then .ok r.text
  else .thrown (gatewayErrorOfResponse r)

/-- Embeds `GatewayClient.fetchEmr` of src/web/sdk/client.ts: identical to
`fetchTranscript` except for the 202 message and the JSON body (abstracted
here as the body text). -/
def GatewayClient.fetchEmr (r : HttpResponse) : FetchResult :=
  if r.status = 202 then .thrown { message := "EMR not ready", status := r.status, problem := none }
  else if r.ok then .ok r.text
  else .thrown (gatewayErrorOfResponse r)

/-! ## SpeechJobsPanel.loadArtifacts (src/web/app/components/SpeechJobsPanel.tsx) -/

/-- A promise rejection reason: either a thrown `GatewayError` or some
other `Error` with a message. -/
inductive RejectionReason where
  | gateway (e : GatewayError)
  | other (message : String)
deriving DecidableEq

/-- The result of `Promise.allSettled` for one artifact fetch. -/
inductive SettledResult where
  | fulfilled (value : String)
  | rejected (reason : RejectionReason)
deriving DecidableEq

/-- The error message `JobDetails.loadArtifacts` displays for one settled
artifact fetch: nothing when fulfilled, nothing when the rejection is a
`GatewayError` with status 202 (pending artifact), and the error message
otherwise. -/
def rejectionDisplay : SettledResult → Option String
  | .fulfilled _ => none
  | .rejected (.gateway e) => if e.status = 202 then none else some e.message
  | .rejected (.other m) => some m

/-- The final error state set by `JobDetails.loadArtifacts`: the transcript
condition runs first, then the EMR condition overwrites it. -/
def loadArtifactsError (transcript emr : SettledResult) : Option String :=
  match rejectionDisplay emr with
  | some m => some m
  | none => rejectionDisplay transcript

/-! ## RagChat and useRagQueryWithDocument (src/web/sdk/hooks.ts, RagChat component) -/

/-- The `RagQueryMode` union type of the web SDK. -/
inductive RagQueryMode where
  | hybrid
  | graph
deriving DecidableEq

/-- Input of the `useRagQueryWithDocument` mutation (src/web/sdk/hooks.ts):
question, optional mode, optional patient filter, and the attached file
(modelled by its text content). -/
structure RagQueryWithDocumentInput where
  question : String
  mode : Option RagQueryMode
  patientIds : Option (List String)
  file : String
deriving DecidableEq

/-- The multipart form assembled by `useRagQueryWithDocument` and posted to
/v1/rag/query-with-document: `patientIds` is the comma-joined list when
non-empty and absent otherwise. -/
structure QueryWithDocumentForm where
  question : String
  mode : RagQueryMode
  patientIds : Option String
  document : String
deriving DecidableEq

/-- Embeds the form construction inside `useRagQueryWithDocument`
(src/web/sdk/hooks.ts lines 73-87): the mode field is
`input.mode ?? "hybrid"`, and `patientIds` is set only when the list is
non-empty. -/
def useRagQueryWithDocument.buildForm (input : RagQueryWithDocumentInput) : QueryWithDocumentForm :=
  { question := input.question
  , mode := input.mode.getD .hybrid
  , patientIds :=
      match input.patientIds with
      | some ids => if ids.length ≠ 0 then some (String.intercalate "," ids) else none
      | none => none
  , document := input.file }

/-- The JSON body posted by the plain `useRagQuery` mutation. -/
structure RagQueryBody where
  question : String
  mode : RagQueryMode
  patientIds : Option (List String)
deriving DecidableEq

/-- The component state of `RagChat` at submission time. -/
structure RagChatState where
  question : String
  mode : RagQueryMode
  selectedPatients : List String
  document : Option String
deriving DecidableEq

/-- The request issued by `RagChat.handleSubmit`. -/
inductive SubmitAction where
  | noop
  | withDocument (form : QueryWithDocumentForm)
  | plain (body : RagQueryBody)
deriving DecidableEq

/-- Embeds `RagChat.handleSubmit`: an empty question is ignored; with an
attached document the query-with-document mutation is called with the
current mode (whatever the user selected); otherwise the plain query
mutation is called. -/
def RagChat.handleSubmit (st : RagChatState) : SubmitAction :=
  if st.question = "" then .noop
  else
    match st.document with
    | some file =>
        .withDocument (useRagQueryWithDocument.buildForm
          { question := st.question
          , mode := some st.mode
          , patientIds := if st.selectedPatients.length ≠ 0 then some st.selectedPatients else none
          , file := file })
    | none =>
        .plain
          { question := st.question
          , mode := st.mode
          , patientIds := if st.selectedPatients.length ≠ 0 then some st.selectedPatients else none }

/-! ## Engine data model (modelled from the spec; the Python engine under
AIEMR_system/chatbot_rag/app is not present under src/) -/

/-- Modelled from the spec: a structured clinical Document — a patient
identifier together with sections, each a named group of field/value
pairs (spec section 3). -/
structure Document where
  patientId : String
  sections : List (String × List (String × String))
deriving DecidableEq

/-- Modelled from the spec: the composite merge keys of the four graph
node kinds, `Patient → SectionTable → Schema → Value` (spec sections 3 and
4.2; labels as in the repository's API documentation). -/
inductive NodeKey where
  | patient (pid : String)
  | sectionTable (pid : String) (sec : String)
  | schema (pid : String) (sec : String) (field : String)
  | value (pid : String) (sec : String) (field : String)
deriving DecidableEq

/-- Properties held by a graph node: the stable identifier (`node_id`,
possibly null — the backfill bug class named in spec section 4.2) and, for
`Value` nodes, the stored value text. -/
structure NodeInfo where
  nodeId : Option String
  val : Option String
deriving DecidableEq

/-- A typed relationship in the graph store. -/
structure GraphEdge where
  source : NodeKey
  target : NodeKey
  rel : String
deriving DecidableEq

/-- Modelled from the spec: the graph store.  `nextId` is the supply for
freshly generated stable identifiers. -/
structure GraphStore where
  nodes : List (NodeKey × NodeInfo)
  edges : List GraphEdge
  nextId : Nat
deriving DecidableEq

/-- The empty graph store. -/
def GraphStore.empty : GraphStore :=
  { nodes := [], edges := [], nextId := 0 }

/-- Look a node up by its composite merge key. -/
def lookupNodes (k : NodeKey) : List (NodeKey × NodeInfo) → Option NodeInfo
  | [] => none
  | (k', info) :: rest => if k' = k then some info else lookupNodes k rest

/-- A freshly generated stable identifier. -/
def freshIdString (n : Nat) : String :=
  "uuid-" ++ toString n

/-- Merge one node into the node list (create-if-absent,
update-if-present).  A missing node is created with the fresh identifier;
an existing node keeps its identifier when it has one and receives the
fresh identifier when its identifier is null; the value property is set in
both cases.  The boolean reports whether the fresh identifier was
consumed. -/
def mergeNodeList (fresh : String) (k : NodeKey) (v : Option String) :
    List (NodeKey × NodeInfo) → List (NodeKey × NodeInfo) × Bool
  | [] => ([(k, { nodeId := some fresh, val := v })], true)
  | (k', info) :: rest =>
    if k' = k then
      ((k, { nodeId := if info.nodeId.isSome then info.nodeId else some fresh, val := v }) :: rest,
        info.nodeId.isNone)
    else
      let res := mergeNodeList fresh k v rest
      ((k', info) :: res.1, res.2)

/-- One primitive merge instruction issued by the Graph Loader. -/
inductive MergeOp where
  | node (k : NodeKey) (v : Option String)
  | edge (source target : NodeKey) (rel : String)
deriving DecidableEq

/-- Apply one merge instruction to the store.  Node merges are
create-if-absent / update-if-present and never fail; edge merges are
create-if-absent. -/
def applyOp (g : GraphStore) : MergeOp → GraphStore
  | .node k v =>
    let res := mergeNodeList (freshIdString g.nextId) k v g.nodes
    { g with nodes := res.1, nextId := if res.2 then g.nextId + 1 else g.nextId }
  | .edge s t rel =>
    if GraphEdge.mk s t rel ∈ g.edges then g
    else { g with edges := g.edges ++ [GraphEdge.mk s t rel] }

/-- Modelled from the spec: the merge instructions for one field/value pair
of a section — merge the `Schema` and `Value` nodes under their composite
keys and the connecting relationships (spec section 4.2). -/
def fieldOps (pid sec : String) (fv : String × String) : List MergeOp :=
  [ .node (.schema pid sec fv.1) none
  , .edge (.sectionTable pid sec) (.schema pid sec fv.1) "HAS_INFORMATION_OF"
  , .node (.value pid sec fv.1) (some fv.2)
  , .edge (.schema pid sec fv.1) (.value pid sec fv.1) "HAS_VALUE" ]

/-- Modelled from the spec: the merge instructions for one section — merge
the `SectionTable` node, the typed "HAS_<SECTION>" relationship from the
patient, then every field of the section. -/
def sectionOps (pid : String) (s : String × List (String × String)) : List MergeOp :=
  .node (.sectionTable pid s.1) none
    :: .edge (.patient pid) (.sectionTable pid s.1) ("HAS_" ++ s.1)
    :: (s.2.map (fieldOps pid s.1)).flatten

/-- Modelled from the spec: the full instruction stream the Graph Loader
issues for one Document — merge the `Patient` node, then every section. -/
def docOps (d : Document) : List MergeOp :=
  .node (.patient d.patientId) none :: (d.sections.map (sectionOps d.patientId)).flatten

/-- Modelled from the spec: the Graph Loader — parse a Document into the
fixed node/edge schema and merge it into the graph store (spec section
4.2; app/graph/ingest.py is not under src/). -/
def loadDocument (g : GraphStore) (d : Document) : GraphStore :=
  (docOps d).foldl applyOp g

/-- A Document is well formed when it assigns at most one value per
composite key (patient, section name, field name) — documents are parsed
from JSON objects, whose keys are unique. -/
def Document.wellFormed (d : Document) : Prop :=
  ∀ s1 ∈ d.sections, ∀ s2 ∈ d.sections, s1.1 = s2.1 →
    ∀ f1 ∈ s1.2, ∀ f2 ∈ s2.2, f1.1 = f2.1 → f1.2 = f2.2

instance (d : Document) : Decidable d.wellFormed := by
  unfold Document.wellFormed
  infer_instance

/-! ## Content Fingerprint Store (modelled from the spec, section 4.1) -/

/-- Modelled from the spec: the Content Fingerprint Store — a persisted
mapping from document identifier to (content hash, ingestion timestamp),
realised in the engine as `IngestionMeta` nodes. -/
structure FingerprintStore where
  entries : List (String × String × Nat)
deriving DecidableEq

/-- The empty fingerprint store. -/
def FingerprintStore.empty : FingerprintStore :=
  { entries := [] }

/-- Look a document's stored hash up in the entry list. -/
def seekFingerprint (documentId : String) : List (String × String × Nat) → Option String
  | [] => none
  | e :: rest => if e.1 = documentId then some e.2.1 else seekFingerprint documentId rest

/-- Modelled from the spec: `recordSeen(documentId) -> hash | absent`. -/
def recordSeen (store : FingerprintStore) (documentId : String) : Option String :=
  seekFingerprint documentId store.entries

/-- Update one entry of the association list. -/
def setFingerprint (documentId hash : String) (timestamp : Nat) :
    List (String × String × Nat) → List (String × String × Nat)
  | [] => [(documentId, hash, timestamp)]
  | e :: rest =>
    if e.1 = documentId then (documentId, hash, timestamp) :: rest
    else e :: setFingerprint documentId hash timestamp rest

/-- Modelled from the spec: `recordUpdate(documentId, hash, timestamp)` —
persist the mapping so re-ingestion decisions survive restarts. -/
def recordUpdate (store : FingerprintStore) (documentId hash : String) (timestamp : Nat) :
    FingerprintStore :=
  { entries := setFingerprint documentId hash timestamp store.entries }

/-- The canonical serialization of a Document. -/
def canonicalDocument (d : Document) : String :=
  d.patientId ++ "|" ++ String.intercalate ";"
    (d.sections.map fun s =>
      s.1 ++ "=" ++ String.intercalate "," (s.2.map fun fv => fv.1 ++ ":" ++ fv.2))

/-- Modelled from the spec: the deterministic content hash over the
canonicalized document bytes (spec section 4.1).  The cryptographic digest
is abstracted as the tagged canonical serialization itself: deterministic,
and collision-free by construction. -/
def contentHash (d : Document) : String :=
  "sha256:" ++ canonicalDocument d

/-! ## Vector Indexer (modelled from the spec, section 4.3) -/

/-- Modelled from the spec: the one-way keyed (secret-salted) hash applied
to patient identifiers before storage in the vector payload.  The digest is
abstracted as a tagged combination of salt and identifier: deterministic
and keyed; its output is never the bare identifier (it is strictly longer),
which is the property the privacy invariant needs. -/
def hashPatientId (salt pid : String) : String :=
  "pidhash:" ++ salt ++ ":" ++ pid

/-- Modelled from the spec: the embedding function, shared by indexing and
query paths.  The external embedding service is abstracted as a
deterministic function of the text. -/
def embedText (t : String) : List Nat :=
  t.data.map Char.toNat

/-- The payload of a Vector Record: the `Value` node identifier, the
section name, and the hashed (never raw) patient identifier. -/
structure VectorPayload where
  valueId : String
  sectionName : String
  patient : String
deriving DecidableEq

/-- Modelled from the spec: one Vector Record per retrievable fact, keyed
by the stable `Value` identifier. -/
structure VectorRecord where
  pointId : String
  fact : String
  embedding : List Nat
  payload : VectorPayload
deriving DecidableEq

/-- The textual fact built from one `Value` node. -/
def factText (sec field v : String) : String :=
  sec ++ " " ++ field ++ ": " ++ v

/-- Construct the Vector Record for one eligible `Value` node. -/
def mkVectorRecord (salt id pid sec field v : String) : VectorRecord :=
  { pointId := id
  , fact := factText sec field v
  , embedding := embedText (factText sec field v)
  , payload := { valueId := id, sectionName := sec, patient := hashPatientId salt pid } }

/-- The eligible `Value` nodes of the graph store: those with a non-null
stable identifier (nodes lacking one are skipped, not fabricated).  Yields
(identifier, patient, section, field, value). -/
def eligibleValues (g : GraphStore) : List (String × String × String × String × String) :=
  g.nodes.filterMap fun p =>
    match p with
    | (.value pid sec field, info) =>
      match info.nodeId with
      | some id => some (id, pid, sec, field, info.val.getD "")
      | none => none
    | _ => none

/-- Upsert one record into the vector store: a record with the same point
identifier is overwritten, never duplicated. -/
def upsertRecord : List VectorRecord → VectorRecord → List VectorRecord
  | [], r => [r]
  | r' :: rest, r =>
    if r'.pointId = r.pointId then r :: rest else r' :: upsertRecord rest r

/-- Modelled from the spec: the Vector Indexer's full rebuild — re-embed
every eligible `Value` reachable from the graph store into a fresh
collection; returns the new store and the count upserted. -/
def rebuildIndex (salt : String) (g : GraphStore) : List VectorRecord × Nat :=
  let recs := (eligibleValues g).map fun e => mkVectorRecord salt e.1 e.2.1 e.2.2.1 e.2.2.2.1 e.2.2.2.2
  (recs.foldl upsertRecord [], recs.length)

/-- Modelled from the spec: the Vector Indexer's incremental upsert for a
list of patient identifiers; returns the updated store and the count
upserted. -/
def upsertPatients (salt : String) (vs : List VectorRecord) (g : GraphStore)
    (pids : List String) : List VectorRecord × Nat :=
  let recs := ((eligibleValues g).filter fun e => pids.contains e.2.1).map
    fun e => mkVectorRecord salt e.1 e.2.1 e.2.2.1 e.2.2.2.1 e.2.2.2.2
  (recs.foldl upsertRecord vs, recs.length)

/-! ## Ingestion Syncer (modelled from the spec, section 4.4) -/

/-- The stores a sync pass reads and writes. -/
structure SyncState where
  fps : FingerprintStore
  graph : GraphStore
  vectors : List VectorRecord
deriving DecidableEq

/-- Outcome of processing one candidate document in a sync pass. -/
inductive SyncOutcome where
  | skipped
  | graphWriteError
  | indexWriteError
  | ingested
deriving DecidableEq

/-- Modelled from the spec: one document's processing inside a sync pass —
`HASH_COMPARE` then `SKIP`, or `LOAD_GRAPH → INDEX_VECTORS →
RECORD_FINGERPRINT` (spec section 4.4).  `graphOk` and `indexOk` model the
external graph-store and embedding/vector-store availability; the
fingerprint is recorded only when both steps succeed.  Returns the new
state, the number of vector upserts performed, and the outcome. -/
def processDocument (salt : String) (st : SyncState) (docId : String) (d : Document)
    (graphOk indexOk : Bool) (now : Nat) : SyncState × Nat × SyncOutcome :=
  let h := contentHash d
  if recordSeen st.fps docId = some h then (st, 0, .skipped)
  else if graphOk = false then (st, 0, .graphWriteError)
  else
    let g' := loadDocument st.graph d
    if indexOk = false then ({ st with graph := g' }, 0, .indexWriteError)
    else
      let res := upsertPatients salt st.vectors g' [d.patientId]
      ({ fps := recordUpdate st.fps docId h now, graph := g', vectors := res.1 },
        res.2, .ingested)

/-! ## Hybrid Retriever (modelled from the spec, sections 4.5 and 9) -/

/-- A request to the external answer-synthesis service; `temperature` is
the optional sampling parameter. -/
structure SynthRequest where
  context : String
  question : String
  temperature : Option String
deriving DecidableEq

/-- The synthesis service's reply: success, a rejection of an unsupported
sampling parameter, or any other failure. -/
inductive SynthResult where
  | ok (text : String)
  | unsupportedParam (message : String)
  | failed (message : String)
deriving DecidableEq

/-- The sampling parameter the retriever requests by default. -/
def defaultTemperature : String := "0.2"

/-- Modelled from the spec: the two-step synthesis fallback of the Hybrid
Retriever — call the service with the sampling parameter; when that call
fails because the parameter is unsupported, retry exactly once with the
parameter omitted; surface any other failure without retrying.  Returns
the result together with the list of requests issued, in order. -/
def synthesizeWithRetry (call : SynthRequest → SynthResult) (ctx q : String) :
    Except String String × List SynthRequest :=
  let req1 : SynthRequest := { context := ctx, question := q, temperature := some defaultTemperature }
  match call req1 with
  | .ok a => (.ok a, [req1])
  | .failed m => (.error m, [req1])
  | .unsupportedParam _ =>
    let req2 : SynthRequest := { context := ctx, question := q, temperature := none }
    match call req2 with
    | .ok a => (.ok a, [req1, req2])
    | .unsupportedParam m => (.error m, [req1, req2])
    | .failed m => (.error m, [req1, req2])

/-- Modelled from the spec: nearest-neighbour search over the vector
store, optionally filtered by the hashed patient identifiers; the ranking
rule is left open by the spec, so the top-K selection is abstracted as
taking `k` of the filtered records. -/
def annSearch (vs : List VectorRecord) (qEmbedding : List Nat)
    (filterHashes : Option (List String)) (k : Nat) : List VectorRecord :=
  let filtered :=
    match filterHashes with
    | some hs => vs.filter fun (r : VectorRecord) => hs.contains r.payload.patient
    | none => vs
  let _ := qEmbedding
  filtered.take k

/-- Render the graph context retrieved for one `Value` identifier. -/
def contextLineFor (g : GraphStore) (id : String) : List String :=
  (eligibleValues g).filterMap fun e =>
    if e.1 = id then some (e.2.1 ++ " / " ++ factText e.2.2.1 e.2.2.2.1 e.2.2.2.2) else none

/-- Modelled from the spec: assemble the structured context for the listed
`Value` identifiers from the graph store. -/
def assembleContext (g : GraphStore) (ids : List String) : String :=
  String.intercalate "\n" ((ids.map (contextLineFor g)).flatten)

/-- Modelled from the spec: if an uploaded supplementary document is
supplied, append its raw text as an additional, clearly labeled context
block — not embedded or searched, just appended (spec sections 4.5 and 6;
app/services/retriever.py is not under src/). -/
def appendDocumentContext (context : String) (doc : Option String) : String :=
  match doc with
  | none => context
  | some text => context ++ "\n\n[Uploaded document]\n" ++ text

/-- The answer returned when the vector search matches nothing. -/
def insufficientDataAnswer : String :=
  "Insufficient data to answer this question."

/-- A typed failure of a query path. -/
structure RagError where
  source : String
  message : String
deriving DecidableEq

/-- The Hybrid Retriever's successful reply: answer text, serialized
context, and the contributing `Value` identifiers as evidence. -/
structure HybridAnswer where
  answer : String
  contextJson : String
  valueNodeIds : List String
deriving DecidableEq

/-- Modelled from the spec: the Hybrid Retriever — embed the question,
search the vector store (filtered by hashed patient identifiers), expand
graph context, append the optional uploaded document, and synthesize an
answer.  Zero matching vectors yield a normal insufficient-data answer
with empty evidence, never an error. -/
def hybridQuery (salt : String) (call : SynthRequest → SynthResult)
    (vs : List VectorRecord) (g : GraphStore) (question : String)
    (patientIds : Option (List String)) (doc : Option String) (k : Nat) :
    Except RagError HybridAnswer :=
  let hits := annSearch vs (embedText question) (patientIds.map (List.map (hashPatientId salt))) k
  if hits.isEmpty then
    .ok { answer := insufficientDataAnswer, contextJson := "\x7b\x7d", valueNodeIds := [] }
  else
    let ids := hits.map fun r => r.payload.valueId
    let ctx := appendDocumentContext (assembleContext g ids) doc
    match (synthesizeWithRetry call ctx question).1 with
    | .ok a => .ok { answer := a, contextJson := ctx, valueNodeIds := ids }
    | .error m => .error { source := "synthesis", message := m }

/-! ## Graph Query Planner (modelled from the spec, section 4.6) -/

/-- Modelled from the spec: the typed failure of the Graph Query Planner,
carrying the offending generated statement. -/
structure QueryPlanError where
  statement : String
  message : String
deriving DecidableEq

/-- The graph store's reply to executing a generated statement. -/
inductive ExecResult where
  | rows (rows : List String)
  | syntaxError (message : String)
  | executionError (message : String)
deriving DecidableEq

/-- The Graph Query Planner's successful reply: the synthesized answer and
the ordered trace of (generated statement, raw result rows). -/
structure GraphModeAnswer where
  answer : String
  steps : List (String × List String)
deriving DecidableEq

/-- The live schema retrieved from the graph store (relationship types). -/
def graphSchema (g : GraphStore) : List String :=
  g.edges.map fun e => e.rel

/-- Modelled from the spec: the Graph Query Planner — generate one
graph-query statement from the live schema and the question, execute it
once, and synthesize an answer from the rows; a syntactically invalid
statement or an execution failure is surfaced as a `QueryPlanError`
carrying the statement, with no retry of generation or execution.  The
second component is the list of statements actually executed, in order. -/
def planGraphQuery (generate : List String → String → String)
    (exec : String → ExecResult) (synthesize : String → List String → String)
    (g : GraphStore) (question : String) :
    Except QueryPlanError GraphModeAnswer × List String :=
  let stmt := generate (graphSchema g) question
  match exec stmt with
  | .rows rs => (.ok { answer := synthesize question rs, steps := [(stmt, rs)] }, [stmt])
  | .syntaxError m => (.error { statement := stmt, message := m }, [stmt])
  | .executionError m => (.error { statement := stmt, message := m }, [stmt])

/-! ## Auxiliary predicates and demo fixtures -/

/-- A merge instruction has taken effect in the store: its node is present
with a non-null identifier and the written value, or its edge is present. -/
def opEstablished (g : GraphStore) : MergeOp → Prop
  | .node k v => ∃ i, lookupNodes k g.nodes = some { nodeId := some i, val := v }
  | .edge s t rel => GraphEdge.mk s t rel ∈ g.edges

/-- Two merge instructions are compatible when they do not write different
values to the same node key. -/
def opCompat : MergeOp → MergeOp → Prop
  | .node k v, .node k' v' => k = k' → v = v'
  | _, _ => True

/-- The stable identifier recorded at a node key: `none` when the key is
absent, `some i` when present with identifier field `i`. -/
def nodeIdAt (g : GraphStore) (k : NodeKey) : Option (Option String) :=
  (lookupNodes k g.nodes).map NodeInfo.nodeId

/-- The patient field of a payload is in hashed form for the given salt:
it starts with the keyed-hash tag. -/
def VectorPayload.isHashed (salt : String) (p : VectorPayload) : Bool :=
  ("pidhash:" ++ salt ++ ":").data.isPrefixOf p.patient.data

/-- A demo clinical document for patient 00028 (spec section 8). -/
def demoDoc : Document :=
  { patientId := "00028"
  , sections := [("PastMedication", [("medication", "Bemfola 150 IU daily"), ("dose", "150 IU")])] }

/-- The graph obtained by ingesting the demo document into an empty store. -/
def demoGraph : GraphStore :=
  loadDocument GraphStore.empty demoDoc

/-- An initial sync state with empty stores. -/
def syncState0 : SyncState :=
  { fps := FingerprintStore.empty, graph := GraphStore.empty, vectors := [] }

/-- A non-ok response carrying a valid problem+json body without a title. -/
def problemJsonNoTitle : HttpResponse :=
  { status := 500
  , contentType := some "application/problem+json"
  , problemBody := some { title := none, detail := some "boom" }
  , text := "" }

/-- A non-ok response carrying a titled problem+json body. -/
def problemJsonTitled : HttpResponse :=
  { status := 404
  , contentType := some "application/problem+json"
  , problemBody := some { title := some "Job not found", detail := none }
  , text := "" }

/-- A 202 artifact response (artifact not ready yet). -/
def response202 : HttpResponse :=
  { status := 202, contentType := some "text/plain", problemBody := none, text := "" }

/-- The gateway error thrown for a pending transcript. -/
def transcriptPending202 : GatewayError :=
  { message := "Transcript not ready", status := 202, problem := none }

/-- RagChat state: graph mode selected and a document attached. -/
def graphModeDocState : RagChatState :=
  { question := "q", mode := .graph, selectedPatients := [], document := some "note" }

/-- A synthesis service that rejects the sampling parameter and succeeds
once the parameter is omitted. -/
def paramIncompatibleSynth : SynthRequest → SynthResult := fun r =>
  match r.temperature with
  | some _ => .unsupportedParam "temperature is not supported"
  | none => .ok "fallback answer"

/-- A statement generator that always produces the same malformed query. -/
def bogusGenerate : List String → String → String := fun _ _ => "MATCH bogus"

/-- A graph store executor that rejects every statement as invalid. -/
def rejectingExec : String → ExecResult := fun _ => .syntaxError "Invalid input"

/-- A trivial row-to-answer synthesizer. -/
def emptySynth : String → List String → String := fun _ _ => ""

/-- A synthesis service that always succeeds. -/
def okSynth : SynthRequest → SynthResult := fun _ => .ok "ok"

/-! ## Lemmas: node merging -/

theorem lookupNodes_mergeNodeList_self (fresh : String) (k : NodeKey) (v : Option String)
    (l : List (NodeKey × NodeInfo)) :
    ∃ i, lookupNodes k (mergeNodeList fresh k v l).1 = some { nodeId := some i, val := v } := by
  induction l with
  | nil => exact ⟨fresh, by simp [mergeNodeList, lookupNodes]⟩
  | cons e rest ih =>
    obtain ⟨k2, info⟩ := e
    by_cases h : k2 = k
    · cases hn : info.nodeId with
      | some j => exact ⟨j, by simp [mergeNodeList, h, lookupNodes, hn]⟩
      | none => exact ⟨fresh, by simp [mergeNodeList, h, lookupNodes, hn]⟩
    · obtain ⟨i, hi⟩ := ih
      exact ⟨i, by simp [mergeNodeList, h, lookupNodes, hi]⟩

theorem lookupNodes_mergeNodeList_other (fresh : String) (k k' : NodeKey) (v : Option String)
    (l : List (NodeKey × NodeInfo)) (h : k' ≠ k) :
    lookupNodes k' (mergeNodeList fresh k v l).1 = lookupNodes k' l := by
  induction l with
  | nil => simp [mergeNodeList, lookupNodes, Ne.symm h]
  | cons e rest ih =>
    obtain ⟨k2, info⟩ := e
    by_cases h2 : k2 = k
    · subst h2
      simp [mergeNodeList, lookupNodes, Ne.symm h]
    · simp [mergeNodeList, h2, lookupNodes, ih]

theorem lookupNodes_mergeNodeList_present {fresh : String} {k : NodeKey} {v : Option String}
    {l : List (NodeKey × NodeInfo)} {info : NodeInfo} (h : lookupNodes k l = some info) :
    lookupNodes k (mergeNodeList fresh k v l).1 =
      some { nodeId := if info.nodeId.isSome then info.nodeId else some fresh, val := v } := by
  induction l with
  | nil => simp [lookupNodes] at h
  | cons e rest ih =>
    obtain ⟨k2, i2⟩ := e
    by_cases h2 : k2 = k
    · subst h2
      simp [lookupNodes] at h
      subst h
      simp [mergeNodeList, lookupNodes]
    · simp [lookupNodes, h2] at h
      simp [mergeNodeList, h2, lookupNodes, ih h]

theorem mergeNodeList_established {fresh : String} {k : NodeKey} {v : Option String} {i : String}
    {l : List (NodeKey × NodeInfo)} (h : lookupNodes k l = some { nodeId := some i, val := v }) :
    mergeNodeList fresh k v l = (l, false) := by
  induction l with
  | nil => simp [lookupNodes] at h
  | cons e rest ih =>
    obtain ⟨k2, i2⟩ := e
    by_cases h2 : k2 = k
    · subst h2
      simp [lookupNodes] at h
      subst h
      simp [mergeNodeList]
    · simp [lookupNodes, h2] at h
      simp [mergeNodeList, h2, ih h]

theorem mergeNodeList_absent {fresh : String} {k : NodeKey} {v : Option String}
    {l : List (NodeKey × NodeInfo)} (h : lookupNodes k l = none) :
    mergeNodeList fresh k v l = (l ++ [(k, { nodeId := some fresh, val := v })], true) := by
  induction l with
  | nil => simp [mergeNodeList]
  | cons e rest ih =>
    obtain ⟨k2, i2⟩ := e
    by_cases h2 : k2 = k
    · simp [lookupNodes, h2] at h
    · simp [lookupNodes, h2] at h
      simp [mergeNodeList, h2, ih h]

theorem lookupNodes_append_self {k : NodeKey} {info : NodeInfo} {l : List (NodeKey × NodeInfo)}
    (h : lookupNodes k l = none) :
    lookupNodes k (l ++ [(k, info)]) = some info := by
  induction l with
  | nil => simp [lookupNodes]
  | cons e rest ih =>
    obtain ⟨k2, i2⟩ := e
    by_cases h2 : k2 = k
    · simp [lookupNodes, h2] at h
    · simp [lookupNodes, h2] at h ⊢
      exact ih h

/-! ## Lemmas: merge instructions and idempotence -/

theorem applyOp_established {g : GraphStore} {op : MergeOp} (h : opEstablished g op) :
    applyOp g op = g := by
  cases op with
  | node k v =>
    obtain ⟨i, hi⟩ := h
    simp [applyOp, mergeNodeList_established hi]
  | edge s t rel =>
    simp only [opEstablished] at h
    simp [applyOp, h]

theorem opEstablished_applyOp (g : GraphStore) (op : MergeOp) :
    opEstablished (applyOp g op) op := by
  cases op with
  | node k v =>
    simpa [opEstablished, applyOp] using
      lookupNodes_mergeNodeList_self (freshIdString g.nextId) k v g.nodes
  | edge s t rel =>
    by_cases h : GraphEdge.mk s t rel ∈ g.edges
    · simp [opEstablished, applyOp, h]
    · simp [opEstablished, applyOp, h]

theorem opEstablished_preserved {g : GraphStore} {op op' : MergeOp}
    (h : opEstablished g op) (hc : opCompat op op') :
    opEstablished (applyOp g op') op := by
  cases op with
  | edge s t rel =>
    simp only [opEstablished] at h ⊢
    cases op' with
    | node k' v' => simpa [applyOp] using h
    | edge s' t' rel' =>
      by_cases h2 : GraphEdge.mk s' t' rel' ∈ g.edges
      · simpa [applyOp, h2] using h
      · simp [applyOp, h2]
        exact Or.inl h
  | node k v =>
    cases op' with
    | edge s' t' rel' =>
      simp only [opEstablished] at h ⊢
      by_cases h2 : GraphEdge.mk s' t' rel' ∈ g.edges
      · simpa [applyOp, h2] using h
      · simpa [applyOp, h2] using h
    | node k' v' =>
      by_cases hk : k' = k
      · subst hk
        have hv : v = v' := hc rfl
        subst hv
        exact opEstablished_applyOp g (.node k' v)
      · simp only [opEstablished] at h ⊢
        obtain ⟨i, hi⟩ := h
        refine ⟨i, ?_⟩
        simpa [applyOp, lookupNodes_mergeNodeList_other _ _ _ _ _ (Ne.symm hk)] using hi

theorem opEstablished_foldl {ops : List MergeOp} {g : GraphStore} {op : MergeOp}
    (h : opEstablished g op) (hc : ∀ o ∈ ops, opCompat op o) :
    opEstablished (ops.foldl applyOp g) op := by
  induction ops generalizing g with
  | nil => simpa using h
  | cons o rest ih =>
    simp only [List.foldl_cons]
    exact ih (opEstablished_preserved h (hc o (by simp))) (fun o' ho' => hc o' (by simp [ho']))

theorem opsEstablished_foldl {ops : List MergeOp} {g : GraphStore}
    (hc : ∀ a ∈ ops, ∀ b ∈ ops, opCompat a b) :
    ∀ op ∈ ops, opEstablished (ops.foldl applyOp g) op := by
  induction ops generalizing g with
  | nil => simp
  | cons o rest ih =>
    intro op hop
    simp only [List.foldl_cons]
    rcases List.mem_cons.mp hop with rfl | hop'
    · exact opEstablished_foldl (opEstablished_applyOp g op)
        (fun o' ho' => hc op (by simp) o' (by simp [ho']))
    · exact ih (fun a ha b hb => hc a (by simp [ha]) b (by simp [hb])) op hop'

theorem foldl_applyOp_established {ops : List MergeOp} {g : GraphStore}
    (h : ∀ op ∈ ops, opEstablished g op) : ops.foldl applyOp g = g := by
  induction ops with
  | nil => rfl
  | cons o rest ih =>
    have h0 : applyOp g o = g := applyOp_established (h o (by simp))
    simp only [List.foldl_cons, h0]
    exact ih (fun op hop => h op (by simp [hop]))

theorem loadDocument_idem_of_compat {g : GraphStore} {d : Document}
    (hc : ∀ a ∈ docOps d, ∀ b ∈ docOps d, opCompat a b) :
    loadDocument (loadDocument g d) d = loadDocument g d := by
  unfold loadDocument
  exact foldl_applyOp_established (opsEstablished_foldl hc)

/-! ## Lemmas: provenance of node instructions and well-formed documents -/

theorem nodeOp_mem_fieldOps {pid sec : String} {fv : String × String} {k : NodeKey}
    {v : Option String} (h : MergeOp.node k v ∈ fieldOps pid sec fv) :
    (k = NodeKey.schema pid sec fv.1 ∧ v = none) ∨
      (k = NodeKey.value pid sec fv.1 ∧ v = some fv.2) := by
  simpa [fieldOps] using h

theorem nodeOp_mem_sectionOps {pid : String} {s : String × List (String × String)}
    {k : NodeKey} {v : Option String} (h : MergeOp.node k v ∈ sectionOps pid s) :
    (k = NodeKey.sectionTable pid s.1 ∧ v = none) ∨
      ∃ fv, fv ∈ s.2 ∧ ((k = NodeKey.schema pid s.1 fv.1 ∧ v = none) ∨
        (k = NodeKey.value pid s.1 fv.1 ∧ v = some fv.2)) := by
  simp only [sectionOps, List.mem_cons, List.mem_flatten, List.mem_map] at h
  rcases h with h | h | ⟨l, ⟨fv, hfv, rfl⟩, hmem⟩
  · exact Or.inl (by simpa using h)
  · simp at h
  · exact Or.inr ⟨fv, hfv, nodeOp_mem_fieldOps hmem⟩

theorem nodeOp_mem_docOps {d : Document} {k : NodeKey} {v : Option String}
    (h : MergeOp.node k v ∈ docOps d) :
    (k = NodeKey.patient d.patientId ∧ v = none) ∨
      ∃ s, s ∈ d.sections ∧
        ((k = NodeKey.sectionTable d.patientId s.1 ∧ v = none) ∨
          ∃ fv, fv ∈ s.2 ∧ ((k = NodeKey.schema d.patientId s.1 fv.1 ∧ v = none) ∨
            (k = NodeKey.value d.patientId s.1 fv.1 ∧ v = some fv.2))) := by
  simp only [docOps, List.mem_cons, List.mem_flatten, List.mem_map] at h
  rcases h with h | ⟨l, ⟨s, hs, rfl⟩, hmem⟩
  · exact Or.inl (by simpa using h)
  · exact Or.inr ⟨s, hs, nodeOp_mem_sectionOps hmem⟩

theorem docOps_compat {d : Document} (hwf : d.wellFormed) :
    ∀ a ∈ docOps d, ∀ b ∈ docOps d, opCompat a b := by
  intro a ha b hb
  cases a with
  | edge _ _ _ => cases b <;> exact trivial
  | node k v =>
    cases b with
    | edge _ _ _ => exact trivial
    | node k' v' =>
      intro hkk
      rcases nodeOp_mem_docOps ha with ⟨hka, hva⟩ |
        ⟨s1, hs1, ⟨hka, hva⟩ | ⟨fv1, hfv1, ⟨hka, hva⟩ | ⟨hka, hva⟩⟩⟩ <;>
      rcases nodeOp_mem_docOps hb with ⟨hkb, hvb⟩ |
        ⟨s2, hs2, ⟨hkb, hvb⟩ | ⟨fv2, hfv2, ⟨hkb, hvb⟩ | ⟨hkb, hvb⟩⟩⟩ <;>
      subst hka <;> subst hkb <;> subst hva <;> subst hvb
      all_goals try rfl
      all_goals try (refine absurd hkk ?_; simp; done)
      simp only [NodeKey.value.injEq] at hkk
      exact congrArg some (hwf s1 hs1 s2 hs2 hkk.2.1 fv1 hfv1 fv2 hfv2 hkk.2.2)

theorem loadDocument_idem {d : Document} (hwf : d.wellFormed) (g : GraphStore) :
    loadDocument (loadDocument g d) d = loadDocument g d :=
  loadDocument_idem_of_compat (docOps_compat hwf)

/-! ## Lemmas: identifier stability, fingerprints, vector store -/

theorem nodeIdAt_applyOp {g : GraphStore} {k : NodeKey} {i : String} {op : MergeOp}
    (h : nodeIdAt g k = some (some i)) : nodeIdAt (applyOp g op) k = some (some i) := by
  cases op with
  | edge s t rel =>
    by_cases h2 : GraphEdge.mk s t rel ∈ g.edges <;> simpa [applyOp, nodeIdAt, h2] using h
  | node k' v' =>
    by_cases h2 : k' = k
    · subst h2
      unfold nodeIdAt at h ⊢
      cases hl : lookupNodes k' g.nodes with
      | none => simp [hl] at h
      | some info =>
        have hinfo : info.nodeId = some i := by
          rw [hl] at h
          simpa using h
        simp [applyOp, lookupNodes_mergeNodeList_present hl, hinfo]
    · unfold nodeIdAt at h ⊢
      simpa [applyOp, lookupNodes_mergeNodeList_other _ _ _ _ _ (Ne.symm h2)] using h

theorem nodeIdAt_foldl {ops : List MergeOp} {g : GraphStore} {k : NodeKey} {i : String}
    (h : nodeIdAt g k = some (some i)) : nodeIdAt (ops.foldl applyOp g) k = some (some i) := by
  induction ops generalizing g with
  | nil => simpa using h
  | cons o rest ih => simpa using ih (nodeIdAt_applyOp h)

theorem nodeIdAt_loadDocument {g : GraphStore} {d : Document} {k : NodeKey} {i : String}
    (h : nodeIdAt g k = some (some i)) : nodeIdAt (loadDocument g d) k = some (some i) :=
  nodeIdAt_foldl h

theorem seekFingerprint_set (documentId hash : String) (t : Nat)
    (l : List (String × String × Nat)) :
    seekFingerprint documentId (setFingerprint documentId hash t l) = some hash := by
  induction l with
  | nil => simp [setFingerprint, seekFingerprint]
  | cons e rest ih =>
    by_cases h : e.1 = documentId
    · simp [setFingerprint, h, seekFingerprint]
    · simp [setFingerprint, h, seekFingerprint, ih]

theorem recordSeen_recordUpdate (store : FingerprintStore) (documentId hash : String) (t : Nat) :
    recordSeen (recordUpdate store documentId hash t) documentId = some hash := by
  simp [recordSeen, recordUpdate, seekFingerprint_set]

theorem mem_upsertRecord {r r0 : VectorRecord} {vs : List VectorRecord}
    (h : r ∈ upsertRecord vs r0) : r ∈ vs ∨ r = r0 := by
  induction vs with
  | nil =>
    simp [upsertRecord] at h
    exact Or.inr h
  | cons r' rest ih =>
    by_cases h2 : r'.pointId = r0.pointId
    · simp only [upsertRecord, if_pos h2, List.mem_cons] at h
      rcases h with rfl | h
      · exact Or.inr rfl
      · exact Or.inl (List.mem_cons_of_mem _ h)
    · simp only [upsertRecord, if_neg h2, List.mem_cons] at h
      rcases h with rfl | h
      · exact Or.inl (List.mem_cons_self _ _)
      · rcases ih h with h3 | h3
        · exact Or.inl (List.mem_cons_of_mem _ h3)
        · exact Or.inr h3

theorem mem_foldl_upsertRecord {recs vs : List VectorRecord} {r : VectorRecord}
    (h : r ∈ recs.foldl upsertRecord vs) : r ∈ vs ∨ r ∈ recs := by
  induction recs generalizing vs with
  | nil => exact Or.inl (by simpa using h)
  | cons r0 rest ih =>
    simp only [List.foldl_cons] at h
    rcases ih h with h2 | h2
    · rcases mem_upsertRecord h2 with h3 | h3
      · exact Or.inl h3
      · exact Or.inr (by simp [h3])
    · exact Or.inr (by simp [h2])

theorem hashPatientId_ne (salt pid : String) : hashPatientId salt pid ≠ pid := by
  intro h
  have hl := congrArg String.length h
  simp only [hashPatientId, String.length_append] at hl
  have h8 : "pidhash:".length = 8 := rfl
  have h1 : ":".length = 1 := rfl
  omega

theorem mkVectorRecord_isHashed (salt id pid sec field v : String) :
    VectorPayload.isHashed salt (mkVectorRecord salt id pid sec field v).payload = true := by
  have hpre : ("pidhash:" ++ salt ++ ":").data <+: ("pidhash:" ++ salt ++ ":" ++ pid).data := by
    simp only [String.data_append]
    exact ⟨pid.data, by simp⟩
  simp only [mkVectorRecord, VectorPayload.isHashed, hashPatientId, List.isPrefixOf_iff_prefix]
  exact hpre

/-! ## Claim theorems -/

/-- C9 (amended): for every non-ok response, `GatewayClient.request` throws
a `GatewayError` carrying the response status; its message is the parsed
problem document's title when the content type is application/problem+json,
the body is valid JSON, and the document carries a title, and the string
"HTTP <status>" otherwise (including when a valid problem document has no
title); `parseProblem` is total, returning none (never throwing) for
non-problem content types or malformed JSON bodies. -/
theorem request_error_spec (r : HttpResponse) (h : r.ok = false) :
    GatewayClient.request r = .failure (gatewayErrorOfResponse r) ∧
    (gatewayErrorOfResponse r).status = r.status ∧
    (gatewayErrorOfResponse r).problem = parseProblem r ∧
    (∀ t, (parseProblem r).bind Problem.title = some t → (gatewayErrorOfResponse r).message = t) ∧
    ((parseProblem r).bind Problem.title = none →
      (gatewayErrorOfResponse r).message = "HTTP " ++ toString r.status) ∧
    (stringIncludes (r.contentType.getD "") "application/problem+json" = false →
      parseProblem r = none) ∧
    (r.problemBody = none → parseProblem r = none) := by
  refine ⟨?_, rfl, rfl, ?_, ?_, ?_, ?_⟩
  · simp [GatewayClient.request, h]
  · intro t ht
    simp [gatewayErrorOfResponse, ht]
  · intro h0
    simp [gatewayErrorOfResponse, h0]
  · intro h1
    simp [parseProblem, h1]
  · intro h2
    simp [parseProblem, h2]

/-- C9 witness: a 404 problem+json response with a title produces a
`GatewayError` whose message is that title. -/
theorem request_error_spec_witness :
    HttpResponse.ok problemJsonTitled = false ∧
    GatewayClient.request problemJsonTitled = .failure (gatewayErrorOfResponse problemJsonTitled) ∧
    (gatewayErrorOfResponse problemJsonTitled).message = "Job not found" :=
  ⟨by decide, (request_error_spec problemJsonTitled (by decide)).1,
    (request_error_spec problemJsonTitled (by decide)).2.2.2.1 "Job not found" (by decide)⟩

/-- C9 counterexample: a 500 response with content type
application/problem+json and a valid JSON body that lacks a title yields
the message "HTTP 500", not the (absent) problem title — refuting the
claim that the message is the problem document's title whenever the
content type matches and the JSON is valid. -/
theorem request_message_counterexample :
    HttpResponse.ok problemJsonNoTitle = false ∧
    stringIncludes (problemJsonNoTitle.contentType.getD "") "application/problem+json" = true ∧
    problemJsonNoTitle.problemBody = some { title := none, detail := some "boom" } ∧
    GatewayClient.request problemJsonNoTitle =
      .failure { message := "HTTP 500", status := 500
               , problem := some { title := none, detail := some "boom" } } ∧
    (parseProblem problemJsonNoTitle).bind Problem.title = none := by
  decide

/-- C10: a 202 transcript or EMR fetch throws a `GatewayError` with status
exactly 202 and the messages "Transcript not ready" / "EMR not ready", and
the jobs panel displays no error for a rejection whose reason is a
`GatewayError` with status 202 (the artifact is pending). -/
theorem artifact_202_pending (r : HttpResponse) (h : r.status = 202) (e : GatewayError)
    (he : e.status = 202) :
    GatewayClient.fetchTranscript r =
      .thrown { message := "Transcript not ready", status := 202, problem := none } ∧
    GatewayClient.fetchEmr r =
      .thrown { message := "EMR not ready", status := 202, problem := none } ∧
    rejectionDisplay (.rejected (.gateway e)) = none ∧
    loadArtifactsError (.rejected (.gateway e)) (.rejected (.gateway e)) = none := by
  refine ⟨?_, ?_, ?_, ?_⟩ <;>
    simp [GatewayClient.fetchTranscript, GatewayClient.fetchEmr, rejectionDisplay,
      loadArtifactsError, h, he]

/-- C10 witness: the concrete 202 response and 202 gateway error. -/
theorem artifact_202_pending_witness :
    GatewayClient.fetchTranscript response202 =
      .thrown { message := "Transcript not ready", status := 202, problem := none } ∧
    GatewayClient.fetchEmr response202 =
      .thrown { message := "EMR not ready", status := 202, problem := none } ∧
    rejectionDisplay (.rejected (.gateway transcriptPending202)) = none ∧
    loadArtifactsError (.rejected (.gateway transcriptPending202))
      (.rejected (.gateway transcriptPending202)) = none :=
  artifact_202_pending response202 rfl transcriptPending202 rfl

/-- C6 counterexample: submitting with an attached document while graph
mode is selected issues the query-with-document request with mode "graph",
refuting the claim that a query with an attached document always runs in
hybrid mode and that the attachment path is available only for hybrid-mode
queries. -/
theorem attachment_mode_counterexample :
    graphModeDocState.document = some "note" ∧
    RagChat.handleSubmit graphModeDocState =
      .withDocument { question := "q", mode := .graph, patientIds := none, document := "note" } ∧
    RagQueryMode.graph ≠ RagQueryMode.hybrid := by
  decide

/-- C6 (amended): a query submitted with an attached document goes through
the query-with-document path carrying the caller-selected mode, which
defaults to hybrid when no mode is supplied; the attachment is appended to
the assembled context as an extra labeled block (not embedded or
searched), and without an attachment the context is unchanged. -/
theorem attachment_document_query (input : RagQueryWithDocumentInput) (hm : input.mode = none)
    (st : RagChatState) (file : String) (hq : st.question ≠ "") (hd : st.document = some file)
    (ctx body : String) :
    (useRagQueryWithDocument.buildForm input).mode = .hybrid ∧
    RagChat.handleSubmit st = .withDocument (useRagQueryWithDocument.buildForm
      { question := st.question
      , mode := some st.mode
      , patientIds := if st.selectedPatients.length ≠ 0 then some st.selectedPatients else none
      , file := file }) ∧
    (useRagQueryWithDocument.buildForm
      { question := st.question
      , mode := some st.mode
      , patientIds := if st.selectedPatients.length ≠ 0 then some st.selectedPatients else none
      , file := file }).mode = st.mode ∧
    appendDocumentContext ctx (some body) = ctx ++ "\n\n[Uploaded document]\n" ++ body ∧
    appendDocumentContext ctx none = ctx := by
  refine ⟨?_, ?_, ?_, rfl, rfl⟩
  · simp [useRagQueryWithDocument.buildForm, hm]
  · simp [RagChat.handleSubmit, hq, hd]
  · simp [useRagQueryWithDocument.buildForm]

/-- C6 witness: the default mode is hybrid and the document is appended as
a labeled block. -/
theorem attachment_document_query_witness :
    (useRagQueryWithDocument.buildForm
      { question := "q", mode := none, patientIds := none, file := "f" }).mode =
        RagQueryMode.hybrid ∧
    appendDocumentContext "CTX" (some "DOC") = "CTX" ++ "\n\n[Uploaded document]\n" ++ "DOC" :=
  ⟨(attachment_document_query { question := "q", mode := none, patientIds := none, file := "f" }
      rfl graphModeDocState "note" (by decide) rfl "CTX" "DOC").1,
   (attachment_document_query { question := "q", mode := none, patientIds := none, file := "f" }
      rfl graphModeDocState "note" (by decide) rfl "CTX" "DOC").2.2.2.1⟩

/-- C4: a hybrid-mode query whose vector search matches zero records
returns a normal answer indicating insufficient data with an empty
evidence list, never an error — regardless of the synthesis service; and
searching an empty vector store matches zero records. -/
theorem hybrid_zero_matches_insufficient (salt : String) (call : SynthRequest → SynthResult)
    (vs : List VectorRecord) (g : GraphStore) (q : String) (pids : Option (List String))
    (doc : Option String) (k : Nat)
    (h : annSearch vs (embedText q) (pids.map (List.map (hashPatientId salt))) k = [])
    (e : List Nat) (f : Option (List String)) (k2 : Nat) :
    hybridQuery salt call vs g q pids doc k =
      .ok { answer := insufficientDataAnswer, contextJson := "\x7b\x7d", valueNodeIds := [] } ∧
    annSearch [] e f k2 = [] := by
  constructor
  · simp [hybridQuery, h]
  · cases f <;> simp [annSearch]

/-- C4 witness: querying with an empty vector index yields the
insufficient-data answer and empty evidence. -/
theorem hybrid_zero_matches_insufficient_witness :
    hybridQuery "AIEMR" okSynth [] demoGraph "What medication is patient 00028 taking?"
      none none 5 =
      .ok { answer := insufficientDataAnswer, contextJson := "\x7b\x7d", valueNodeIds := [] } :=
  (hybrid_zero_matches_insufficient "AIEMR" okSynth [] demoGraph
    "What medication is patient 00028 taking?" none none 5 rfl [] none 0).1

/-- C5: when the generated statement is syntactically invalid or its
execution fails, the Graph Query Planner returns a `QueryPlanError`
carrying the offending statement text, and exactly one statement is
generated and executed (no automatic retry). -/
theorem planner_surfaces_typed_error (generate : List String → String → String)
    (exec : String → ExecResult) (synthesize : String → List String → String)
    (g : GraphStore) (q m : String) :
    (exec (generate (graphSchema g) q) = .syntaxError m →
      planGraphQuery generate exec synthesize g q =
        (.error { statement := generate (graphSchema g) q, message := m },
          [generate (graphSchema g) q])) ∧
    (exec (generate (graphSchema g) q) = .executionError m →
      planGraphQuery generate exec synthesize g q =
        (.error { statement := generate (graphSchema g) q, message := m },
          [generate (graphSchema g) q])) := by
  constructor <;> intro h <;> simp [planGraphQuery, h]

/-- C5 witness: a rejected malformed statement is surfaced as a typed
error carrying that statement, with a single execution. -/
theorem planner_surfaces_typed_error_witness :
    planGraphQuery bogusGenerate rejectingExec emptySynth demoGraph "history?" =
      (.error { statement := "MATCH bogus", message := "Invalid input" }, ["MATCH bogus"]) :=
  (planner_surfaces_typed_error bogusGenerate rejectingExec emptySynth demoGraph "history?"
    "Invalid input").1 rfl

/-- C8: an answer-synthesis call rejected for an unsupported sampling
parameter is retried exactly once with that parameter omitted (the issued
request list is the parameterised request followed by the parameterless
one), and the retry's outcome is surfaced; any other failure of the first
call is surfaced without a retry. -/
theorem synthesis_retry_once (call : SynthRequest → SynthResult) (ctx q m m2 a : String) :
    (call { context := ctx, question := q, temperature := some defaultTemperature } =
        .unsupportedParam m →
      (synthesizeWithRetry call ctx q).2 =
        [{ context := ctx, question := q, temperature := some defaultTemperature },
         { context := ctx, question := q, temperature := none }]) ∧
    (call { context := ctx, question := q, temperature := some defaultTemperature } =
        .unsupportedParam m →
      call { context := ctx, question := q, temperature := none } = .ok a →
      synthesizeWithRetry call ctx q =
        (.ok a, [{ context := ctx, question := q, temperature := some defaultTemperature },
                 { context := ctx, question := q, temperature := none }])) ∧
    (call { context := ctx, question := q, temperature := some defaultTemperature } =
        .unsupportedParam m →
      call { context := ctx, question := q, temperature := none } = .failed m2 →
      synthesizeWithRetry call ctx q =
        (.error m2, [{ context := ctx, question := q, temperature := some defaultTemperature },
                     { context := ctx, question := q, temperature := none }])) ∧
    (call { context := ctx, question := q, temperature := some defaultTemperature } = .failed m →
      synthesizeWithRetry call ctx q =
        (.error m, [{ context := ctx, question := q, temperature := some defaultTemperature }])) ∧
    (call { context := ctx, question := q, temperature := some defaultTemperature } = .ok a →
      synthesizeWithRetry call ctx q =
        (.ok a, [{ context := ctx, question := q, temperature := some defaultTemperature }])) := by
  refine ⟨?_, ?_, ?_, ?_, ?_⟩
  · intro h
    simp only [synthesizeWithRetry, h]
    cases call { context := ctx, question := q, temperature := none } <;> simp
  · intro h h2
    simp [synthesizeWithRetry, h, h2]
  · intro h h2
    simp [synthesizeWithRetry, h, h2]
  · intro h
    simp [synthesizeWithRetry, h]
  · intro h
    simp [synthesizeWithRetry, h]

/-- C8 witness: a service that rejects the sampling parameter and succeeds
without it produces the fallback answer after exactly two requests, the
second with the parameter omitted. -/
theorem synthesis_retry_once_witness :
    synthesizeWithRetry paramIncompatibleSynth "C" "Q" =
      (.ok "fallback answer",
        [{ context := "C", question := "Q", temperature := some defaultTemperature },
         { context := "C", question := "Q", temperature := none }]) :=
  (synthesis_retry_once paramIncompatibleSynth "C" "Q" "temperature is not supported" ""
    "fallback answer").2.1 rfl rfl

/-- C2: the Vector Indexer stores the one-way keyed hash of the patient
identifier in every record it writes — the builder stores exactly
`hashPatientId salt pid`, which never equals the raw identifier — and
after a rebuild, or an upsert into a store whose records are all in hashed
form, every record's patient field is in hashed form. -/
theorem vector_payload_hashed (salt : String) (g : GraphStore) (vs : List VectorRecord)
    (pids : List String) (id pid sec field v : String)
    (hvs : ∀ r ∈ vs, VectorPayload.isHashed salt r.payload = true) :
    (mkVectorRecord salt id pid sec field v).payload.patient = hashPatientId salt pid ∧
    (mkVectorRecord salt id pid sec field v).payload.patient ≠ pid ∧
    (∀ r ∈ (rebuildIndex salt g).1, VectorPayload.isHashed salt r.payload = true) ∧
    (∀ r ∈ (upsertPatients salt vs g pids).1, VectorPayload.isHashed salt r.payload = true) := by
  refine ⟨rfl, hashPatientId_ne salt pid, ?_, ?_⟩
  · intro r hr
    simp only [rebuildIndex] at hr
    rcases mem_foldl_upsertRecord hr with h | h
    · simp at h
    · rcases List.mem_map.mp h with ⟨e, he, rfl⟩
      exact mkVectorRecord_isHashed salt e.1 e.2.1 e.2.2.1 e.2.2.2.1 e.2.2.2.2
  · intro r hr
    simp only [upsertPatients] at hr
    rcases mem_foldl_upsertRecord hr with h | h
    · exact hvs r h
    · rcases List.mem_map.mp h with ⟨e, he, rfl⟩
      exact mkVectorRecord_isHashed salt e.1 e.2.1 e.2.2.1 e.2.2.2.1 e.2.2.2.2

/-- C2 witness: the record built for patient 00028 stores the keyed hash
and not the raw identifier. -/
theorem vector_payload_hashed_witness :
    (mkVectorRecord "AIEMR" "uuid-3" "00028" "PastMedication" "medication"
      "Bemfola 150 IU daily").payload.patient = hashPatientId "AIEMR" "00028" ∧
    (mkVectorRecord "AIEMR" "uuid-3" "00028" "PastMedication" "medication"
      "Bemfola 150 IU daily").payload.patient ≠ "00028" :=
  ⟨(vector_payload_hashed "AIEMR" demoGraph [] [] "uuid-3" "00028" "PastMedication" "medication"
      "Bemfola 150 IU daily" (by simp)).1,
   (vector_payload_hashed "AIEMR" demoGraph [] [] "uuid-3" "00028" "PastMedication" "medication"
      "Bemfola 150 IU daily" (by simp)).2.1⟩

/-- C3: in a sync pass, the fingerprint entry for a document is updated if
and only if the document was due for ingestion and both the graph-load and
vector-index steps succeed; on either failure the fingerprint store is
unchanged, so a subsequent pass does not skip the document. -/
theorem fingerprint_recorded_iff_success (salt : String) (st : SyncState) (docId : String)
    (d : Document) (graphOk indexOk : Bool) (now now2 : Nat) :
    ((processDocument salt st docId d graphOk indexOk now).2.2 = .ingested ↔
      (recordSeen st.fps docId ≠ some (contentHash d) ∧ graphOk = true ∧ indexOk = true)) ∧
    ((processDocument salt st docId d graphOk indexOk now).2.2 = .ingested →
      recordSeen (processDocument salt st docId d graphOk indexOk now).1.fps docId =
        some (contentHash d)) ∧
    ((processDocument salt st docId d graphOk indexOk now).2.2 = .graphWriteError ∨
        (processDocument salt st docId d graphOk indexOk now).2.2 = .indexWriteError →
      (processDocument salt st docId d graphOk indexOk now).1.fps = st.fps) ∧
    ((processDocument salt st docId d graphOk indexOk now).2.2 = .graphWriteError ∨
        (processDocument salt st docId d graphOk indexOk now).2.2 = .indexWriteError →
      (processDocument salt (processDocument salt st docId d graphOk indexOk now).1
        docId d true true now2).2.2 ≠ .skipped) := by
  by_cases hskip : recordSeen st.fps docId = some (contentHash d)
  · cases graphOk <;> cases indexOk <;> simp [processDocument, hskip]
  · cases graphOk <;> cases indexOk <;>
      simp [processDocument, hskip, recordSeen_recordUpdate]

/-- C3 witness: a failing graph-load pass leaves the fingerprint store
unchanged and the next pass does not skip the document. -/
theorem fingerprint_recorded_iff_success_witness :
    (processDocument "AIEMR" syncState0 "doc1" demoDoc false true 0).1.fps = syncState0.fps ∧
    (processDocument "AIEMR" (processDocument "AIEMR" syncState0 "doc1" demoDoc false true 0).1
      "doc1" demoDoc true true 1).2.2 ≠ SyncOutcome.skipped :=
  ⟨(fingerprint_recorded_iff_success "AIEMR" syncState0 "doc1" demoDoc false true 0 1).2.2.1
      (Or.inl (by decide)),
   (fingerprint_recorded_iff_success "AIEMR" syncState0 "doc1" demoDoc false true 0 1).2.2.2
      (Or.inl (by decide))⟩

/-- C1: after a successful ingestion of a document, processing the same
unchanged document again is a no-op — same stores, zero vector upserts,
outcome skipped — and, independently of the fingerprint skip, merging a
well-formed document into any graph a second time leaves the graph store
exactly as after the first merge (zero additional nodes or edges). -/
theorem ingest_unchanged_noop (salt : String) (st : SyncState) (docId : String) (d : Document)
    (now now2 : Nat) (graphOk2 indexOk2 : Bool) (g : GraphStore) (hwf : d.wellFormed) :
    processDocument salt (processDocument salt st docId d true true now).1 docId d
      graphOk2 indexOk2 now2 =
      ((processDocument salt st docId d true true now).1, 0, .skipped) ∧
    loadDocument (loadDocument g d) d = loadDocument g d := by
  constructor
  · by_cases hskip : recordSeen st.fps docId = some (contentHash d)
    · simp [processDocument, hskip]
    · simp [processDocument, hskip, recordSeen_recordUpdate]
  · exact loadDocument_idem hwf g

/-- C1 witness: ingesting the demo document twice — the second pass is a
skip with zero upserts, and the double merge equals the single merge. -/
theorem ingest_unchanged_noop_witness :
    Document.wellFormed demoDoc ∧
    processDocument "AIEMR" (processDocument "AIEMR" syncState0 "doc1" demoDoc true true 0).1
      "doc1" demoDoc true true 1 =
      ((processDocument "AIEMR" syncState0 "doc1" demoDoc true true 0).1, 0,
        SyncOutcome.skipped) ∧
    loadDocument (loadDocument GraphStore.empty demoDoc) demoDoc =
      loadDocument GraphStore.empty demoDoc :=
  ⟨by decide,
   (ingest_unchanged_noop "AIEMR" syncState0 "doc1" demoDoc 0 1 true true GraphStore.empty
     (by decide)).1,
   (ingest_unchanged_noop "AIEMR" syncState0 "doc1" demoDoc 0 1 true true GraphStore.empty
     (by decide)).2⟩

/-- C7: stable identifiers are assigned exactly once and merging never
fails for lack of one — a node absent from the store is created with the
fresh identifier; a node present with a null identifier receives the fresh
identifier as a fallback; after any node merge the node carries some
identifier; and an identifier already present is preserved unchanged
across a whole subsequent document merge. -/
theorem stable_id_assigned_once (g : GraphStore) (k : NodeKey) (v : Option String)
    (d : Document) (i : String) :
    (lookupNodes k g.nodes = none →
      lookupNodes k (applyOp g (.node k v)).nodes =
        some { nodeId := some (freshIdString g.nextId), val := v }) ∧
    (∀ v0, lookupNodes k g.nodes = some { nodeId := none, val := v0 } →
      lookupNodes k (applyOp g (.node k v)).nodes =
        some { nodeId := some (freshIdString g.nextId), val := v }) ∧
    (∃ j, lookupNodes k (applyOp g (.node k v)).nodes = some { nodeId := some j, val := v }) ∧
    (nodeIdAt g k = some (some i) → nodeIdAt (loadDocument g d) k = some (some i)) := by
  refine ⟨?_, ?_, ?_, fun h => nodeIdAt_loadDocument h⟩
  · intro h
    simp only [applyOp, mergeNodeList_absent h]
    exact lookupNodes_append_self h
  · intro v0 h
    have hp := @lookupNodes_mergeNodeList_present (freshIdString g.nextId) k v g.nodes
      { nodeId := none, val := v0 } h
    simpa [applyOp] using hp
  · exact lookupNodes_mergeNodeList_self (freshIdString g.nextId) k v g.nodes

/-- C7 witness: a missing patient node is created with the fresh
identifier, and the identifier of the demo medication value node survives
re-merging the whole demo document. -/
theorem stable_id_assigned_once_witness :
    lookupNodes (NodeKey.patient "00028") GraphStore.empty.nodes = none ∧
    lookupNodes (NodeKey.patient "00028")
      (applyOp GraphStore.empty (.node (NodeKey.patient "00028") none)).nodes =
      some { nodeId := some (freshIdString GraphStore.empty.nextId), val := none } ∧
    nodeIdAt (loadDocument demoGraph demoDoc)
      (NodeKey.value "00028" "PastMedication" "medication") = some (some "uuid-3") :=
  ⟨by decide,
   (stable_id_assigned_once GraphStore.empty (NodeKey.patient "00028") none demoDoc "uuid-3").1
     (by decide),
   (stable_id_assigned_once demoGraph (NodeKey.value "00028" "PastMedication" "medication")
     none demoDoc "uuid-3").2.2.2 (by decide)⟩
